import Mathlib

/-!
Shallow embedding of `src/tools/colmap_api.cpp` / `colmap_api.h`
(a thin command-dispatch layer of the colmap repository).

Each API operation is modelled as a Lean function from
  * an `Env` bundling the behaviour of the external colmap library
    calls the glue code makes (camera-model registry, CSV parsing,
    file reading, directory checks, the CUDA compile flag), and
  * an options record holding the values produced by
    `OptionManager::Read` for that operation,
to a pair of the `int` exit code and the ordered list of external
effects (`Ev`) the operation performs: diagnostics to the standard
streams, construction and running of collaborator objects, and
filesystem reads/writes.  The control flow of each definition mirrors
the corresponding C++ function statement by statement.
-/

namespace ColmapApi

/-- Exit code `EXIT_SUCCESS` from `<cstdlib>`. -/
def EXIT_SUCCESS : Int := 0

/-- Exit code `EXIT_FAILURE` from `<cstdlib>`. -/
def EXIT_FAILURE : Int := 1

/-- Modelled from the spec: `StringToLower` is a colmap string utility
whose source is not under `src/`; the spec describes dispatch on the
"lowercased value", i.e. ASCII lowercasing of the option string. -/
def StringToLower (s : String) : String := String.mk (s.data.map Char.toLower)

/-- The fields of colmap's `ImageReaderOptions` that the glue code reads
or writes. -/
structure ImageReaderOptions where
  database_path : String
  image_path : String
  image_list : List String
  camera_model : String
  camera_params : String
  deriving Repr, DecidableEq

/-- The field of `SiftExtractionOptions` the glue code reads; the record
stands for the whole option block, forwarded by value. -/
structure SiftExtractionOptions where
  use_gpu : Bool
  deriving Repr, DecidableEq

/-- The field of `SiftMatchingOptions` the glue code reads. -/
structure SiftMatchingOptions where
  use_gpu : Bool
  deriving Repr, DecidableEq

/-- Which undistorter class `UndistortImages` constructs. -/
inductive UndistorterKind where
  | colmap
  | pmvs
  | cmpmvs
  deriving Repr, DecidableEq

/-- The collaborator threads the glue code starts and waits on. -/
inductive ThreadKind where
  | siftFeatureExtractor
  | exhaustiveFeatureMatcher
  | incrementalMapper
  | undistorter (kind : UndistorterKind)
  | stereoFusion
  deriving Repr, DecidableEq

/-- External effects of the glue code, in program order. -/
inductive Ev where
  | cerr (msg : String)
  | cout (msg : String)
  | readTextFileLines (path : String)
  | createDirIfNotExists (path : String)
  | reconstructionRead (path : String)
  | reconstructionManagerRead (path : String)
  | reconstructionWrite (path : String)
  | optionsWrite (path : String)
  | constructSiftFeatureExtractor (reader : ImageReaderOptions) (sift : SiftExtractionOptions)
  | constructExhaustiveFeatureMatcher (database_path : String)
  | constructIncrementalMapper (image_path : String) (database_path : String)
  | addLastImageRegCallback
  | constructUndistorter (kind : UndistorterKind) (image_path : String) (output_path : String)
  | constructStereoFusion (workspace_path : String) (workspace_format : String)
      (pmvs_option_name : String) (input_type : String)
  | constructDatabase (database_path : String)
  | writeBinary (path : String)
  | writeText (path : String)
  | exportNVM (path : String)
  | exportBundler (bundler_path : String) (list_path : String)
  | exportPLY (path : String)
  | exportVRML (images_path : String) (points_path : String)
  | writeBinaryPlyPoints (path : String)
  | writePointsVisibility (path : String)
  | threadStart (t : ThreadKind)
  | threadWait (t : ThreadKind)
  | runThreadWithOpenGLContext (t : ThreadKind)
  deriving Repr, DecidableEq

/-- Behaviour of the external library calls the glue code makes.  The
glue code treats every one of them as a black box; the claims hold for
every instantiation of this record. -/
structure Env where
  cudaEnabled : Bool
  existsCameraModelWithName : String → Bool
  cameraModelNameToId : String → Int
  cameraModelVerifyParams : Int → List Float → Bool
  csvToVector : String → List Float
  readTextFileLines : String → List String
  existsDir : String → Bool
  reconstructionManagerSizeAfterMapping : Nat

/-- Mirrors the `CUDA_ENABLED` conditional defining `kUseOpenGL` at the
top of colmap_api.cpp. -/
def kUseOpenGL (env : Env) : Bool := !env.cudaEnabled

/-- Embedding of `VerifyCameraParams` (colmap_api.cpp, lines 29-42):
returns the C++ boolean result together with the diagnostics printed. -/
def VerifyCameraParams (env : Env) (camera_model : String) (params : String) :
    Bool × List Ev :=
  if !(env.existsCameraModelWithName camera_model) then
    (false, [Ev.cerr "ERROR: Camera model does not exist"])
  else
    let camera_params := env.csvToVector params
    let camera_model_id := env.cameraModelNameToId camera_model
    if camera_params.length > 0 && !(env.cameraModelVerifyParams camera_model_id camera_params) then
      (false, [Ev.cerr "ERROR: Invalid camera parameters"])
    else
      (true, [])

/-- Option values produced by `OptionManager::Read` in `ExtractFeatures`. -/
structure ExtractFeaturesOptions where
  features_image_list_path : String
  image_reader : ImageReaderOptions
  database_path : String
  image_path : String
  sift_extraction : SiftExtractionOptions

/-- The part of `ExtractFeatures` after the image-list handling: camera
model existence check (print only), `VerifyCameraParams` (early failure
return), then construction and running of the `SiftFeatureExtractor`. -/
def ExtractFeaturesBody (env : Env) (opts : ExtractFeaturesOptions)
    (reader_options : ImageReaderOptions) (tr : List Ev) : Int × List Ev :=
  let tr := tr ++
    (if env.existsCameraModelWithName opts.image_reader.camera_model then []
     else [Ev.cerr "ERROR: Camera model does not exist"])
  let verify := VerifyCameraParams env opts.image_reader.camera_model
    opts.image_reader.camera_params
  let tr := tr ++ verify.2
  if !verify.1 then
    (EXIT_FAILURE, tr)
  else
    let tr := tr ++ [Ev.constructSiftFeatureExtractor reader_options opts.sift_extraction]
    if opts.sift_extraction.use_gpu && kUseOpenGL env then
      (EXIT_SUCCESS, tr ++ [Ev.runThreadWithOpenGLContext ThreadKind.siftFeatureExtractor])
    else
      (EXIT_SUCCESS, tr ++ [Ev.threadStart ThreadKind.siftFeatureExtractor,
                            Ev.threadWait ThreadKind.siftFeatureExtractor])

/-- Embedding of `ExtractFeatures` (colmap_api.cpp, lines 44-83). -/
def ExtractFeatures (env : Env) (opts : ExtractFeaturesOptions) : Int × List Ev :=
  let reader_options : ImageReaderOptions :=
    { opts.image_reader with
        database_path := opts.database_path
        image_path := opts.image_path }
  if opts.features_image_list_path.isEmpty then
    ExtractFeaturesBody env opts reader_options []
  else
    let image_list := env.readTextFileLines opts.features_image_list_path
    if image_list.isEmpty then
      (EXIT_SUCCESS, [Ev.readTextFileLines opts.features_image_list_path])
    else
      ExtractFeaturesBody env opts { reader_options with image_list := image_list }
        [Ev.readTextFileLines opts.features_image_list_path]

/-- Option values produced by `OptionManager::Read` in
`MatchFeaturesExhaustively`. -/
structure MatchFeaturesOptions where
  database_path : String
  sift_matching : SiftMatchingOptions

/-- Embedding of `MatchFeaturesExhaustively` (colmap_api.cpp, lines 85-103). -/
def MatchFeaturesExhaustively (env : Env) (opts : MatchFeaturesOptions) : Int × List Ev :=
  let tr := [Ev.constructExhaustiveFeatureMatcher opts.database_path]
  if opts.sift_matching.use_gpu && kUseOpenGL env then
    (EXIT_SUCCESS, tr ++ [Ev.runThreadWithOpenGLContext ThreadKind.exhaustiveFeatureMatcher])
  else
    (EXIT_SUCCESS, tr ++ [Ev.threadStart ThreadKind.exhaustiveFeatureMatcher,
                          Ev.threadWait ThreadKind.exhaustiveFeatureMatcher])

/-- Option values produced by `OptionManager::Read` in `ReconstructSparse`. -/
structure ReconstructSparseOptions where
  mapper_input_path : String
  mapper_output_path : String
  mapper_image_list_path : String
  database_path : String
  image_path : String

/-- Embedding of `ReconstructSparse` (colmap_api.cpp, lines 105-168).
The per-model writes performed inside the last-image-registered callback
happen while the external mapper runs; registering the callback is the
event `addLastImageRegCallback`. -/
def ReconstructSparse (env : Env) (opts : ReconstructSparseOptions) : Int × List Ev :=
  if !(env.existsDir opts.mapper_output_path) then
    (EXIT_FAILURE, [Ev.cerr "ERROR: output_path is not a directory."])
  else
    let tr : List Ev :=
      if !opts.mapper_image_list_path.isEmpty then
        [Ev.readTextFileLines opts.mapper_image_list_path]
      else []
    if opts.mapper_input_path != "" && !(env.existsDir opts.mapper_input_path) then
      (EXIT_FAILURE, tr ++ [Ev.cerr "ERROR: input_path is not a directory."])
    else
      let tr := tr ++
        (if opts.mapper_input_path != "" then
          [Ev.reconstructionManagerRead opts.mapper_input_path]
         else [])
      let tr := tr ++ [Ev.constructIncrementalMapper opts.image_path opts.database_path]
      let tr := tr ++
        (if opts.mapper_input_path == "" then [Ev.addLastImageRegCallback] else [])
      let tr := tr ++ [Ev.threadStart ThreadKind.incrementalMapper,
                       Ev.threadWait ThreadKind.incrementalMapper]
      let tr := tr ++
        (if opts.mapper_input_path != "" &&
            env.reconstructionManagerSizeAfterMapping > 0 then
          [Ev.reconstructionWrite opts.mapper_output_path]
         else [])
      (EXIT_SUCCESS, tr)

/-- Option values produced by `OptionManager::Read` in `ConvertModel`. -/
structure ConvertModelOptions where
  converter_input_path : String
  converter_output_path : String
  converter_output_type : String

/-- Index of the last occurrence of a character in a character list,
mirroring `std::string::find_last_of` for a single character. -/
def lastIndexOf (c : Char) : List Char → Option Nat
  | [] => none
  | d :: rest =>
    match lastIndexOf c rest with
    | some i => some (i + 1)
    | none => if d = c then some 0 else none

/-- The base path computed on the VRML branch of `ConvertModel`:
`substr(0, find_last_of("."))`, the whole string when no dot occurs. -/
def vrmlBasePath (path : String) : String :=
  match lastIndexOf '.' path.toList with
  | some i => String.mk (path.toList.take i)
  | none => path

/-- Embedding of `ConvertModel` (colmap_api.cpp, lines 170-208). -/
def ConvertModel (opts : ConvertModelOptions) : Int × List Ev :=
  let tr := [Ev.reconstructionRead opts.converter_input_path]
  let t := StringToLower opts.converter_output_type
  if t = "bin" then
    (EXIT_SUCCESS, tr ++ [Ev.writeBinary opts.converter_output_path])
  else if t = "txt" then
    (EXIT_SUCCESS, tr ++ [Ev.writeText opts.converter_output_path])
  else if t = "nvm" then
    (EXIT_SUCCESS, tr ++ [Ev.exportNVM opts.converter_output_path])
  else if t = "bundler" then
    (EXIT_SUCCESS, tr ++ [Ev.exportBundler (opts.converter_output_path ++ ".bundle.out")
                                           (opts.converter_output_path ++ ".list.txt")])
  else if t = "ply" then
    (EXIT_SUCCESS, tr ++ [Ev.exportPLY opts.converter_output_path])
  else if t = "vrml" then
    let base_path := vrmlBasePath opts.converter_output_path
    (EXIT_SUCCESS, tr ++ [Ev.exportVRML (base_path ++ ".images.wrl")
                                        (base_path ++ ".points3D.wrl")])
  else
    (EXIT_FAILURE, tr ++ [Ev.cerr "ERROR: Invalid output_type"])

/-- Option values produced by `OptionManager::Read` in `UndistortImages`.
The numeric `UndistortCameraOptions` fields are read and forwarded to the
undistorter constructor untouched; they play no role in the control flow
and are not recorded in the events. -/
structure UndistortImagesOptions where
  model_input_path : String
  undistorter_output_path : String
  undistorter_output_type : String
  image_path : String

/-- Embedding of `UndistortImages` (colmap_api.cpp, lines 210-264). -/
def UndistortImages (opts : UndistortImagesOptions) : Int × List Ev :=
  let tr := [Ev.createDirIfNotExists opts.undistorter_output_path,
             Ev.reconstructionRead opts.model_input_path]
  let run := fun (k : UndistorterKind) =>
    (EXIT_SUCCESS,
     tr ++ [Ev.constructUndistorter k opts.image_path opts.undistorter_output_path,
            Ev.threadStart (ThreadKind.undistorter k),
            Ev.threadWait (ThreadKind.undistorter k)])
  if opts.undistorter_output_type = "COLMAP" then
    run UndistorterKind.colmap
  else if opts.undistorter_output_type = "PMVS" then
    run UndistorterKind.pmvs
  else if opts.undistorter_output_type = "CMP-MVS" then
    run UndistorterKind.cmpmvs
  else
    (EXIT_FAILURE,
     tr ++ [Ev.cerr "ERROR: Invalid output_type - supported values are COLMAP, PMVS, CMP-MVS."])

/-- Option values produced by `OptionManager::Read` in `CreateDatabase`. -/
structure CreateDatabaseOptions where
  database_path : String

/-- Embedding of `CreateDatabase` (colmap_api.cpp, lines 266-274). -/
def CreateDatabase (opts : CreateDatabaseOptions) : Int × List Ev :=
  (EXIT_SUCCESS, [Ev.constructDatabase opts.database_path])

/-- Option values produced by `OptionManager::Read` in `StereoFuser`. -/
structure StereoFuserOptions where
  dense_workspace_path : String
  input_type : String
  workspace_format : String
  pmvs_option_name : String
  dense_output_path : String

/-- Embedding of `StereoFuser` (colmap_api.cpp, lines 316-361). -/
def StereoFuser (opts : StereoFuserOptions) : Int × List Ev :=
  let workspace_format := StringToLower opts.workspace_format
  if workspace_format ≠ "colmap" ∧ workspace_format ≠ "pmvs" then
    (EXIT_FAILURE,
     [Ev.cout "ERROR: Invalid workspace_format - supported values are COLMAP or PMVS."])
  else
    let input_type := StringToLower opts.input_type
    if input_type ≠ "photometric" ∧ input_type ≠ "geometric" then
      (EXIT_FAILURE,
       [Ev.cout "ERROR: Invalid input type - supported values are photometric and geometric."])
    else
      (EXIT_SUCCESS,
       [Ev.constructStereoFusion opts.dense_workspace_path workspace_format
          opts.pmvs_option_name input_type,
        Ev.threadStart ThreadKind.stereoFusion,
        Ev.threadWait ThreadKind.stereoFusion,
        Ev.cout ("Writing output: " ++ opts.dense_output_path),
        Ev.writeBinaryPlyPoints opts.dense_output_path,
        Ev.writePointsVisibility (opts.dense_output_path ++ ".vis")])

/-- Events that invoke one of the `Reconstruction` export routines used
by `ConvertModel`. -/
def isExportEv : Ev → Bool
  | Ev.writeBinary _ => true
  | Ev.writeText _ => true
  | Ev.exportNVM _ => true
  | Ev.exportBundler _ _ => true
  | Ev.exportPLY _ => true
  | Ev.exportVRML _ _ => true
  | _ => false

/-- Events that print a diagnostic to `std::cerr`. -/
def isCerrEv : Ev → Bool
  | Ev.cerr _ => true
  | _ => false

/-- C1: `ConvertModel` dispatches on the lowercased output type by a flat
equality chain: each of the six recognised values yields `EXIT_SUCCESS`
and exactly one export-routine call; every other value yields
`EXIT_FAILURE`, no export call, and one error diagnostic. -/
theorem convertModel_dispatch (opts : ConvertModelOptions) :
    ((StringToLower opts.converter_output_type = "bin" ∨
      StringToLower opts.converter_output_type = "txt" ∨
      StringToLower opts.converter_output_type = "nvm" ∨
      StringToLower opts.converter_output_type = "bundler" ∨
      StringToLower opts.converter_output_type = "ply" ∨
      StringToLower opts.converter_output_type = "vrml") →
      (ConvertModel opts).1 = EXIT_SUCCESS ∧
      (ConvertModel opts).2.countP (fun e => isExportEv e) = 1) ∧
    ((StringToLower opts.converter_output_type ≠ "bin" ∧
      StringToLower opts.converter_output_type ≠ "txt" ∧
      StringToLower opts.converter_output_type ≠ "nvm" ∧
      StringToLower opts.converter_output_type ≠ "bundler" ∧
      StringToLower opts.converter_output_type ≠ "ply" ∧
      StringToLower opts.converter_output_type ≠ "vrml") →
      (ConvertModel opts).1 = EXIT_FAILURE ∧
      (ConvertModel opts).2.countP (fun e => isExportEv e) = 0 ∧
      (ConvertModel opts).2.countP (fun e => isCerrEv e) = 1) := by
  constructor
  · rintro (h | h | h | h | h | h) <;>
      simp [ConvertModel, h, isExportEv, EXIT_SUCCESS, List.countP_cons, List.countP_nil]
  · rintro ⟨h1, h2, h3, h4, h5, h6⟩
    simp [ConvertModel, h1, h2, h3, h4, h5, h6, isExportEv, isCerrEv, EXIT_FAILURE,
      List.countP_cons, List.countP_nil]

/-- Witness for C1: "BIN" lowercases to a recognised value and exports
once; "xyz" is rejected with no export. -/
theorem convertModel_dispatch_witness :
    ((ConvertModel ⟨"in", "out", "BIN"⟩).1 = EXIT_SUCCESS ∧
     (ConvertModel ⟨"in", "out", "BIN"⟩).2.countP (fun e => isExportEv e) = 1) ∧
    ((ConvertModel ⟨"in", "out", "xyz"⟩).1 = EXIT_FAILURE ∧
     (ConvertModel ⟨"in", "out", "xyz"⟩).2.countP (fun e => isExportEv e) = 0 ∧
     (ConvertModel ⟨"in", "out", "xyz"⟩).2.countP (fun e => isCerrEv e) = 1) :=
  ⟨(convertModel_dispatch ⟨"in", "out", "BIN"⟩).1 (Or.inl (by decide)),
   (convertModel_dispatch ⟨"in", "out", "xyz"⟩).2 (by decide)⟩

/-- C2: `UndistortImages` dispatches on the exact (not lowercased) output
type over COLMAP, PMVS and CMP-MVS, constructing the matching
undistorter; any other string yields `EXIT_FAILURE` with an error
diagnostic and neither constructs nor starts any undistorter. -/
theorem undistortImages_dispatch (opts : UndistortImagesOptions) :
    (opts.undistorter_output_type = "COLMAP" →
      (UndistortImages opts).1 = EXIT_SUCCESS ∧
      Ev.constructUndistorter UndistorterKind.colmap opts.image_path
        opts.undistorter_output_path ∈ (UndistortImages opts).2) ∧
    (opts.undistorter_output_type = "PMVS" →
      (UndistortImages opts).1 = EXIT_SUCCESS ∧
      Ev.constructUndistorter UndistorterKind.pmvs opts.image_path
        opts.undistorter_output_path ∈ (UndistortImages opts).2) ∧
    (opts.undistorter_output_type = "CMP-MVS" →
      (UndistortImages opts).1 = EXIT_SUCCESS ∧
      Ev.constructUndistorter UndistorterKind.cmpmvs opts.image_path
        opts.undistorter_output_path ∈ (UndistortImages opts).2) ∧
    ((opts.undistorter_output_type ≠ "COLMAP" ∧
      opts.undistorter_output_type ≠ "PMVS" ∧
      opts.undistorter_output_type ≠ "CMP-MVS") →
      (UndistortImages opts).1 = EXIT_FAILURE ∧
      (∀ k p q, Ev.constructUndistorter k p q ∉ (UndistortImages opts).2) ∧
      (∀ t, Ev.threadStart t ∉ (UndistortImages opts).2) ∧
      (UndistortImages opts).2.countP (fun e => isCerrEv e) = 1) := by
  refine ⟨fun h => ?_, fun h => ?_, fun h => ?_, fun h => ?_⟩
  · simp [UndistortImages, h, EXIT_SUCCESS]
  · simp [UndistortImages, h, EXIT_SUCCESS]
  · simp [UndistortImages, h, EXIT_SUCCESS]
  · obtain ⟨h1, h2, h3⟩ := h
    simp [UndistortImages, h1, h2, h3, EXIT_FAILURE, isCerrEv,
      List.countP_cons, List.countP_nil]

/-- Witness for C2: "COLMAP" constructs the COLMAP undistorter; the
lowercase "colmap" is rejected without constructing or starting one. -/
theorem undistortImages_dispatch_witness :
    ((UndistortImages ⟨"m", "o", "COLMAP", "i"⟩).1 = EXIT_SUCCESS ∧
     Ev.constructUndistorter UndistorterKind.colmap "i" "o" ∈
       (UndistortImages ⟨"m", "o", "COLMAP", "i"⟩).2) ∧
    (UndistortImages ⟨"m", "o", "colmap", "i"⟩).1 = EXIT_FAILURE ∧
    (UndistortImages ⟨"m", "o", "colmap", "i"⟩).2.countP (fun e => isCerrEv e) = 1 :=
  ⟨(undistortImages_dispatch ⟨"m", "o", "COLMAP", "i"⟩).1 (by decide),
   ((undistortImages_dispatch ⟨"m", "o", "colmap", "i"⟩).2.2.2 (by decide)).1,
   ((undistortImages_dispatch ⟨"m", "o", "colmap", "i"⟩).2.2.2 (by decide)).2.2.2⟩

/-- C3: `StereoFuser` validates the lowercased workspace format against
colmap/pmvs and the lowercased input type against photometric/geometric;
if either is outside its set it returns `EXIT_FAILURE` without
constructing or starting the fusion thread and without writing the
fused-point output files, and if both are valid it runs the fusion. -/
theorem stereoFuser_validation (opts : StereoFuserOptions) :
    (((StringToLower opts.workspace_format ≠ "colmap" ∧
       StringToLower opts.workspace_format ≠ "pmvs") ∨
      (StringToLower opts.input_type ≠ "photometric" ∧
       StringToLower opts.input_type ≠ "geometric")) →
      (StereoFuser opts).1 = EXIT_FAILURE ∧
      (∀ a b c d, Ev.constructStereoFusion a b c d ∉ (StereoFuser opts).2) ∧
      (∀ t, Ev.threadStart t ∉ (StereoFuser opts).2) ∧
      (∀ p, Ev.writeBinaryPlyPoints p ∉ (StereoFuser opts).2) ∧
      (∀ p, Ev.writePointsVisibility p ∉ (StereoFuser opts).2)) ∧
    (((StringToLower opts.workspace_format = "colmap" ∨
       StringToLower opts.workspace_format = "pmvs") ∧
      (StringToLower opts.input_type = "photometric" ∨
       StringToLower opts.input_type = "geometric")) →
      (StereoFuser opts).1 = EXIT_SUCCESS) := by
  constructor
  · rintro (⟨h1, h2⟩ | ⟨h3, h4⟩)
    · simp [StereoFuser, h1, h2, EXIT_FAILURE]
    · by_cases h1 : StringToLower opts.workspace_format = "colmap" <;>
        by_cases h2 : StringToLower opts.workspace_format = "pmvs" <;>
        simp [StereoFuser, h1, h2, h3, h4, EXIT_FAILURE]
  · rintro ⟨hw | hw, hi | hi⟩ <;> simp [StereoFuser, hw, hi, EXIT_SUCCESS]

/-- Witness for C3: an invalid workspace format fails without fusion
output; valid values succeed. -/
theorem stereoFuser_validation_witness :
    (StereoFuser ⟨"w", "geometric", "bad", "option-all", "out"⟩).1 = EXIT_FAILURE ∧
    (StereoFuser ⟨"w", "geometric", "COLMAP", "option-all", "out"⟩).1 = EXIT_SUCCESS :=
  ⟨((stereoFuser_validation ⟨"w", "geometric", "bad", "option-all", "out"⟩).1
      (Or.inl (by decide))).1,
   (stereoFuser_validation ⟨"w", "geometric", "COLMAP", "option-all", "out"⟩).2
      ⟨Or.inl (by decide), Or.inr (by decide)⟩⟩

/-- C9: for every existing camera model, `VerifyCameraParams` accepts an
empty parsed parameter vector: `CameraModelVerifyParams` is consulted
only when at least one numeric parameter is present. -/
theorem verifyCameraParams_empty_params_accepted
    (env : Env) (camera_model params : String)
    (hex : env.existsCameraModelWithName camera_model = true)
    (hcsv : env.csvToVector params = []) :
    (VerifyCameraParams env camera_model params).1 = true := by
  simp [VerifyCameraParams, hex, hcsv]

/-- Witness for C9 at a concrete environment. -/
theorem verifyCameraParams_empty_params_accepted_witness :
    (VerifyCameraParams
      { cudaEnabled := false
        existsCameraModelWithName := fun _ => true
        cameraModelNameToId := fun _ => 0
        cameraModelVerifyParams := fun _ _ => false
        csvToVector := fun _ => []
        readTextFileLines := fun _ => []
        existsDir := fun _ => true
        reconstructionManagerSizeAfterMapping := 0 }
      "SIMPLE_PINHOLE" "").1 = true :=
  verifyCameraParams_empty_params_accepted _ "SIMPLE_PINHOLE" "" rfl rfl

/-- Events that call `Thread::Start` on a collaborator. -/
def isThreadStartEv : Ev → Bool
  | Ev.threadStart _ => true
  | _ => false

/-- Every `threadStart` in the trace is immediately followed by the
`threadWait` of the same thread; `runThreadWithOpenGLContext` runs the
thread synchronously and needs no wait. -/
def startsImmediatelyWaited : List Ev → Bool
  | [] => true
  | Ev.threadStart t :: rest =>
    match rest with
    | Ev.threadWait u :: rest2 => t == u && startsImmediatelyWaited rest2
    | _ => false
  | _ :: rest => startsImmediatelyWaited rest

/-- C4: in `ExtractFeatures`, `MatchFeaturesExhaustively`,
`ReconstructSparse` and `UndistortImages`, every collaborator thread
that is started is waited on immediately afterwards (or run
synchronously with an OpenGL context), so the operation never returns
while a spawned thread is still running. -/
theorem threads_started_then_waited (env : Env) (eo : ExtractFeaturesOptions)
    (mo : MatchFeaturesOptions) (ro : ReconstructSparseOptions)
    (uo : UndistortImagesOptions) :
    startsImmediatelyWaited (ExtractFeatures env eo).2 = true ∧
    startsImmediatelyWaited (MatchFeaturesExhaustively env mo).2 = true ∧
    startsImmediatelyWaited (ReconstructSparse env ro).2 = true ∧
    startsImmediatelyWaited (UndistortImages uo).2 = true := by
  refine ⟨?_, ?_, ?_, ?_⟩
  · simp only [ExtractFeatures, ExtractFeaturesBody, VerifyCameraParams, kUseOpenGL]
    repeat' split
    all_goals simp [startsImmediatelyWaited]
  · simp only [MatchFeaturesExhaustively, kUseOpenGL]
    repeat' split
    all_goals simp [startsImmediatelyWaited]
  · simp only [ReconstructSparse]
    repeat' split
    all_goals simp [startsImmediatelyWaited]
  · simp only [UndistortImages]
    repeat' split
    all_goals simp [startsImmediatelyWaited]


/-- Effects the spec allows `ExtractFeatures`: diagnostics, reading the
image-list file, and constructing/running the `SiftFeatureExtractor`. -/
def allowedExtractFeaturesEv : Ev → Bool
  | Ev.cerr _ => true
  | Ev.readTextFileLines _ => true
  | Ev.constructSiftFeatureExtractor _ _ => true
  | Ev.threadStart ThreadKind.siftFeatureExtractor => true
  | Ev.threadWait ThreadKind.siftFeatureExtractor => true
  | Ev.runThreadWithOpenGLContext ThreadKind.siftFeatureExtractor => true
  | _ => false

/-- Effects the spec allows `MatchFeaturesExhaustively`:
constructing/running the `ExhaustiveFeatureMatcher`. -/
def allowedMatchFeaturesEv : Ev → Bool
  | Ev.constructExhaustiveFeatureMatcher _ => true
  | Ev.threadStart ThreadKind.exhaustiveFeatureMatcher => true
  | Ev.threadWait ThreadKind.exhaustiveFeatureMatcher => true
  | Ev.runThreadWithOpenGLContext ThreadKind.exhaustiveFeatureMatcher => true
  | _ => false

/-- Effects the spec allows `ReconstructSparse`: diagnostics, path
reads, and constructing/running the `IncrementalMapperController` with
its reconstruction-manager bookkeeping. -/
def allowedReconstructSparseEv : Ev → Bool
  | Ev.cerr _ => true
  | Ev.readTextFileLines _ => true
  | Ev.reconstructionManagerRead _ => true
  | Ev.constructIncrementalMapper _ _ => true
  | Ev.addLastImageRegCallback => true
  | Ev.threadStart ThreadKind.incrementalMapper => true
  | Ev.threadWait ThreadKind.incrementalMapper => true
  | Ev.reconstructionWrite _ => true
  | _ => false

/-- Effects the spec allows `ConvertModel`: diagnostics, reading the
`Reconstruction`, and calling one of its export routines. -/
def allowedConvertModelEv : Ev → Bool
  | Ev.cerr _ => true
  | Ev.reconstructionRead _ => true
  | Ev.writeBinary _ => true
  | Ev.writeText _ => true
  | Ev.exportNVM _ => true
  | Ev.exportBundler _ _ => true
  | Ev.exportPLY _ => true
  | Ev.exportVRML _ _ => true
  | _ => false

/-- Effects the spec allows `UndistortImages`: diagnostics, path setup,
reading the `Reconstruction`, and constructing/running an undistorter. -/
def allowedUndistortImagesEv : Ev → Bool
  | Ev.cerr _ => true
  | Ev.createDirIfNotExists _ => true
  | Ev.reconstructionRead _ => true
  | Ev.constructUndistorter _ _ _ => true
  | Ev.threadStart (ThreadKind.undistorter _) => true
  | Ev.threadWait (ThreadKind.undistorter _) => true
  | _ => false

/-- Effects the spec allows `CreateDatabase`: constructing the
`Database` object. -/
def allowedCreateDatabaseEv : Ev → Bool
  | Ev.constructDatabase _ => true
  | _ => false

/-- C5: every API operation only validates its inputs, prints
diagnostics, and constructs and runs its external collaborator; no
other effect (in particular no reconstruction, matching or geometry
computation of its own, and no collaborator of a different operation)
is ever performed. -/
theorem api_operations_delegate (env : Env) (eo : ExtractFeaturesOptions)
    (mo : MatchFeaturesOptions) (ro : ReconstructSparseOptions)
    (co : ConvertModelOptions) (uo : UndistortImagesOptions)
    (dbo : CreateDatabaseOptions) :
    (ExtractFeatures env eo).2.all (fun e => allowedExtractFeaturesEv e) = true ∧
    (MatchFeaturesExhaustively env mo).2.all (fun e => allowedMatchFeaturesEv e) = true ∧
    (ReconstructSparse env ro).2.all (fun e => allowedReconstructSparseEv e) = true ∧
    (ConvertModel co).2.all (fun e => allowedConvertModelEv e) = true ∧
    (UndistortImages uo).2.all (fun e => allowedUndistortImagesEv e) = true ∧
    (CreateDatabase dbo).2.all (fun e => allowedCreateDatabaseEv e) = true := by
  refine ⟨?_, ?_, ?_, ?_, ?_, ?_⟩
  · simp only [ExtractFeatures, ExtractFeaturesBody, VerifyCameraParams, kUseOpenGL]
    repeat' split
    all_goals simp [allowedExtractFeaturesEv]
  · simp only [MatchFeaturesExhaustively, kUseOpenGL]
    repeat' split
    all_goals simp [allowedMatchFeaturesEv]
  · simp only [ReconstructSparse]
    repeat' split
    all_goals simp [allowedReconstructSparseEv]
  · simp only [ConvertModel]
    repeat' split
    all_goals simp [allowedConvertModelEv]
  · simp only [UndistortImages]
    repeat' split
    all_goals simp [allowedUndistortImagesEv]
  · simp [CreateDatabase, allowedCreateDatabaseEv]

/-- C7: every API operation of colmap_api.h signals its outcome only
through the returned int, which is always `EXIT_SUCCESS` or
`EXIT_FAILURE`. -/
theorem api_exit_codes (env : Env) (eo : ExtractFeaturesOptions)
    (mo : MatchFeaturesOptions) (ro : ReconstructSparseOptions)
    (co : ConvertModelOptions) (uo : UndistortImagesOptions)
    (dbo : CreateDatabaseOptions) :
    ((ExtractFeatures env eo).1 = EXIT_SUCCESS ∨ (ExtractFeatures env eo).1 = EXIT_FAILURE) ∧
    ((MatchFeaturesExhaustively env mo).1 = EXIT_SUCCESS ∨
      (MatchFeaturesExhaustively env mo).1 = EXIT_FAILURE) ∧
    ((ReconstructSparse env ro).1 = EXIT_SUCCESS ∨ (ReconstructSparse env ro).1 = EXIT_FAILURE) ∧
    ((ConvertModel co).1 = EXIT_SUCCESS ∨ (ConvertModel co).1 = EXIT_FAILURE) ∧
    ((UndistortImages uo).1 = EXIT_SUCCESS ∨ (UndistortImages uo).1 = EXIT_FAILURE) ∧
    ((CreateDatabase dbo).1 = EXIT_SUCCESS ∨ (CreateDatabase dbo).1 = EXIT_FAILURE) := by
  refine ⟨?_, ?_, ?_, ?_, ?_, ?_⟩
  · simp only [ExtractFeatures, ExtractFeaturesBody, VerifyCameraParams, kUseOpenGL]
    repeat' split
    all_goals simp
  · simp only [MatchFeaturesExhaustively, kUseOpenGL]
    repeat' split
    all_goals simp
  · simp only [ReconstructSparse]
    repeat' split
    all_goals simp
  · simp only [ConvertModel]
    repeat' split
    all_goals simp
  · simp only [UndistortImages]
    repeat' split
    all_goals simp
  · simp [CreateDatabase]

/-- A concrete environment where every external check succeeds and every
external read comes back empty, used to instantiate the theorems. -/
def envAllOk : Env where
  cudaEnabled := false
  existsCameraModelWithName := fun _ => true
  cameraModelNameToId := fun _ => 0
  cameraModelVerifyParams := fun _ _ => true
  csvToVector := fun _ => []
  readTextFileLines := fun _ => []
  existsDir := fun _ => true
  reconstructionManagerSizeAfterMapping := 0

/-- Like `envAllOk` but with no camera model registered. -/
def envNoModel : Env :=
  { envAllOk with existsCameraModelWithName := fun _ => false }

/-- C6: the `database_path` and `image_path` strings read by the option
manager are copied unchanged into the `ImageReaderOptions` handed to the
feature extractor, and the sift-extraction options are forwarded
unmodified. -/
theorem extractFeatures_option_passthrough (env : Env) (opts : ExtractFeaturesOptions)
    (reader : ImageReaderOptions) (sift : SiftExtractionOptions)
    (h : Ev.constructSiftFeatureExtractor reader sift ∈ (ExtractFeatures env opts).2) :
    reader.database_path = opts.database_path ∧
    reader.image_path = opts.image_path ∧
    sift = opts.sift_extraction := by
  simp only [ExtractFeatures, ExtractFeaturesBody, VerifyCameraParams, kUseOpenGL] at h
  repeat' split at h
  all_goals simp_all

/-- Witness for C6 at a concrete run that constructs the extractor. -/
theorem extractFeatures_option_passthrough_witness :
    (⟨"db", "im", [], "SIMPLE_PINHOLE", ""⟩ : ImageReaderOptions).database_path = "db" ∧
    (⟨"db", "im", [], "SIMPLE_PINHOLE", ""⟩ : ImageReaderOptions).image_path = "im" ∧
    (⟨false⟩ : SiftExtractionOptions) =
      (⟨"", ⟨"old_db", "old_im", [], "SIMPLE_PINHOLE", ""⟩, "db", "im", ⟨false⟩⟩ :
        ExtractFeaturesOptions).sift_extraction :=
  extractFeatures_option_passthrough envAllOk
    ⟨"", ⟨"old_db", "old_im", [], "SIMPLE_PINHOLE", ""⟩, "db", "im", ⟨false⟩⟩
    ⟨"db", "im", [], "SIMPLE_PINHOLE", ""⟩ ⟨false⟩ (by decide)

/-- C8: when the image-list option is set and the listed file reads back
empty, `ExtractFeatures` returns `EXIT_SUCCESS` at once; the trace holds
only the file read, so no camera-model validation, extractor
construction or extraction happens. -/
theorem extractFeatures_empty_image_list_early_success (env : Env)
    (opts : ExtractFeaturesOptions)
    (hne : opts.features_image_list_path.isEmpty = false)
    (hempty : env.readTextFileLines opts.features_image_list_path = []) :
    ExtractFeatures env opts =
      (EXIT_SUCCESS, [Ev.readTextFileLines opts.features_image_list_path]) := by
  simp [ExtractFeatures, hne, hempty]

/-- Witness for C8 at a concrete empty list file. -/
theorem extractFeatures_empty_image_list_early_success_witness :
    ExtractFeatures envAllOk
      ⟨"list.txt", ⟨"", "", [], "SIMPLE_PINHOLE", ""⟩, "db", "im", ⟨false⟩⟩ =
      (EXIT_SUCCESS, [Ev.readTextFileLines "list.txt"]) :=
  extractFeatures_empty_image_list_early_success envAllOk
    ⟨"list.txt", ⟨"", "", [], "SIMPLE_PINHOLE", ""⟩, "db", "im", ⟨false⟩⟩
    (by decide) rfl

/-- C10: with an unknown camera model (and no early image-list return),
`ExtractFeatures` fails before constructing the extractor; the
existence error is printed twice, once by the non-returning first check
and once by `VerifyCameraParams`, which forces `EXIT_FAILURE`. -/
theorem extractFeatures_unknown_camera_model_fails (env : Env)
    (opts : ExtractFeaturesOptions)
    (hmodel : env.existsCameraModelWithName opts.image_reader.camera_model = false)
    (hlist : opts.features_image_list_path.isEmpty = true ∨
      (env.readTextFileLines opts.features_image_list_path).isEmpty = false) :
    (ExtractFeatures env opts).1 = EXIT_FAILURE ∧
    (ExtractFeatures env opts).2.countP
      (fun e => e == Ev.cerr "ERROR: Camera model does not exist") = 2 ∧
    ∀ r s, Ev.constructSiftFeatureExtractor r s ∉ (ExtractFeatures env opts).2 := by
  rcases hlist with hlist | hlist
  · simp [ExtractFeatures, ExtractFeaturesBody, VerifyCameraParams, hmodel, hlist,
      List.countP_cons, List.countP_nil]
  · by_cases hp : opts.features_image_list_path.isEmpty = true <;>
      simp [ExtractFeatures, ExtractFeaturesBody, VerifyCameraParams, hmodel, hlist, hp,
        List.countP_cons, List.countP_nil]

/-- Witness for C10 at a concrete unknown camera model. -/
theorem extractFeatures_unknown_camera_model_fails_witness :
    (ExtractFeatures envNoModel
      ⟨"", ⟨"", "", [], "NO_SUCH_MODEL", ""⟩, "db", "im", ⟨false⟩⟩).1 = EXIT_FAILURE ∧
    (ExtractFeatures envNoModel
      ⟨"", ⟨"", "", [], "NO_SUCH_MODEL", ""⟩, "db", "im", ⟨false⟩⟩).2.countP
      (fun e => e == Ev.cerr "ERROR: Camera model does not exist") = 2 :=
  ⟨(extractFeatures_unknown_camera_model_fails envNoModel
      ⟨"", ⟨"", "", [], "NO_SUCH_MODEL", ""⟩, "db", "im", ⟨false⟩⟩
      rfl (Or.inl (by decide))).1,
   (extractFeatures_unknown_camera_model_fails envNoModel
      ⟨"", ⟨"", "", [], "NO_SUCH_MODEL", ""⟩, "db", "im", ⟨false⟩⟩
      rfl (Or.inl (by decide))).2.1⟩

end ColmapApi
